import Mathlib

/-!
Shallow embedding of the GreenZest e-commerce backend (Node/Express +
Mongoose) and proofs about its documented behaviour.

Conventions of the embedding:
* Mongoose documents become Lean structures; JS numbers that the code
  treats as integers become `Nat`/`Int`, monetary amounts and other
  possibly fractional numbers become `Rat`.
* Mongoose pre/post hooks and route handlers become pure functions from
  document (plus collection state where needed) to document/state.
* Nullable fields (`lockUntil`) become `Option`.
* Enum string values stay strings, except the loyalty tier which is the
  four-constructor type `Tier` (spelled `bronze`.. in one schema variant
  and `Bronze`.. in the other; the casing is irrelevant to every claim).
-/

namespace GreenZest

/-- Loyalty tier enumeration (`['bronze','silver','gold','platinum']` in
src/unnamed/part_005, `['Bronze','Silver','Gold','Platinum']` in
src/models/User.js). -/
inductive Tier where
  | bronze
  | silver
  | gold
  | platinum
deriving DecidableEq

/-- Point thresholds of the tiers as used by both schema variants
(`>= 1000` platinum, `>= 500` gold, `>= 100` silver, base bronze). -/
def Tier.threshold : Tier → ℤ
  | .bronze => 0
  | .silver => 100
  | .gold => 500
  | .platinum => 1000

/-- The tiers in ascending order. -/
def tierLadder : List Tier := [Tier.bronze, Tier.silver, Tier.gold, Tier.platinum]

/-- The highest tier whose threshold does not exceed the given number of
loyalty points. This is the property the specification states; the code
computes it with an if/else-if chain. -/
def highestTierLe (lp : ℤ) : Tier :=
  ((tierLadder.filter (fun t => decide (t.threshold ≤ lp))).getLast?).getD Tier.bronze

/-- User document, variant of src/unnamed/part_005 (fields relevant to
loyalty, impact and lockout; `failedLoginAttempts`/`lockUntil` are this
variant's security fields, `lockUntil: null` by default). -/
structure User5 where
  loyaltyPoints : ℤ
  tier : Tier
  totalCO2Saved : ℚ
  totalWaterSaved : ℚ
  totalOrangesRecycled : ℚ
  failedLoginAttempts : ℕ
  lockUntil : Option ℕ
  isActive : Bool
deriving DecidableEq

/-- `userSchema.methods.updateLoyaltyPoints` (src/unnamed/part_005
lines 133-146): add the points, then the if/else-if chain over the new
total; note there is no `else` branch, so below 100 points the tier field
is left as it was. -/
def updateLoyaltyPoints (u : User5) (points : ℤ) : User5 :=
  let lp := u.loyaltyPoints + points
  { u with
    loyaltyPoints := lp
    tier :=
      if 1000 ≤ lp then Tier.platinum
      else if 500 ≤ lp then Tier.gold
      else if 100 ≤ lp then Tier.silver
      else u.tier }

/-- `userSchema.methods.updateImpact` (src/unnamed/part_005 lines
112-130): accumulate the three impact counters, add
`Math.floor(co2Saved)` loyalty points, then the same tier chain. -/
def updateImpact (u : User5) (co2Saved waterSaved orangesRecycled : ℚ) : User5 :=
  let lp := u.loyaltyPoints + ⌊co2Saved⌋
  { u with
    totalCO2Saved := u.totalCO2Saved + co2Saved
    totalWaterSaved := u.totalWaterSaved + waterSaved
    totalOrangesRecycled := u.totalOrangesRecycled + orangesRecycled
    loyaltyPoints := lp
    tier :=
      if 1000 ≤ lp then Tier.platinum
      else if 500 ≤ lp then Tier.gold
      else if 100 ≤ lp then Tier.silver
      else u.tier }

/-- User document, variant of src/models/User.js (loyalty fields and this
variant's security fields `loginAttempts`/`lockUntil`). -/
structure UserM where
  loyaltyPoints : ℤ
  tier : Tier
  loginAttempts : ℕ
  lockUntil : Option ℕ
  isActive : Bool
deriving DecidableEq

/-- `userSchema.methods.updateTier` (src/models/User.js lines 153-170):
recompute the tier from scratch, defaulting to Bronze. -/
def updateTier (u : UserM) : UserM :=
  { u with
    tier :=
      if 1000 ≤ u.loyaltyPoints then Tier.platinum
      else if 500 ≤ u.loyaltyPoints then Tier.gold
      else if 100 ≤ u.loyaltyPoints then Tier.silver
      else Tier.bronze }

/-- `userSchema.methods.addLoyaltyPoints` (src/models/User.js lines
181-185): `loyaltyPoints += points || 0` followed by `updateTier()`. -/
def addLoyaltyPoints (u : UserM) (points : ℤ) : UserM :=
  updateTier { u with loyaltyPoints := u.loyaltyPoints + points }

/-- A freshly signed-up user of the part_005 schema: every counter
defaults to 0, the tier defaults to bronze, no lock. -/
def freshUser5 : User5 :=
  { loyaltyPoints := 0
    tier := Tier.bronze
    totalCO2Saved := 0
    totalWaterSaved := 0
    totalOrangesRecycled := 0
    failedLoginAttempts := 0
    lockUntil := none
    isActive := true }

/-- Outcome of a login request, following the response taxonomy of the
two login handlers (200 success, 401 invalid credentials, 423 locked,
401 deactivated account). -/
inductive LoginRes where
  | success
  | invalidCredentials
  | accountLocked
  | deactivated
deriving DecidableEq

/-- `user.lockUntil && user.lockUntil > Date.now()` (src/routes/auth.js
line 130). -/
def lockedA (u : User5) (now : ℕ) : Bool :=
  match u.lockUntil with
  | some l => decide (now < l)
  | none => false

/-- `POST /api/auth/login` of src/routes/auth.js (lines 106-177), for a
request whose email resolved to the user `u`; `passwordOk` is the result
of the bcrypt comparison. Order of checks as in the source: lock check,
active check, password check (on failure increment
`failedLoginAttempts` and set a 15-minute lock once they reach 5), and
on success reset the counters. -/
def loginA (u : User5) (passwordOk : Bool) (now : ℕ) : LoginRes × User5 :=
  if lockedA u now then (LoginRes.accountLocked, u)
  else if !u.isActive then (LoginRes.deactivated, u)
  else if !passwordOk then
    let a := u.failedLoginAttempts + 1
    (LoginRes.invalidCredentials,
      { u with
        failedLoginAttempts := a
        lockUntil := if 5 ≤ a then some (now + 15 * 60 * 1000) else u.lockUntil })
  else
    (LoginRes.success, { u with failedLoginAttempts := 0, lockUntil := none })

/-- A run of consecutive failed (wrong-password) logins at the given
times, variant A. -/
def failsA (u : User5) (ts : List ℕ) : User5 :=
  ts.foldl (fun v t => (loginA v false t).2) u

/-- `userSchema.methods.isLocked` (src/models/User.js lines 121-123):
`!!(this.lockUntil && this.lockUntil > Date.now())`. -/
def lockedB (u : UserM) (now : ℕ) : Bool :=
  match u.lockUntil with
  | some l => decide (now < l)
  | none => false

/-- `userSchema.methods.incLoginAttempts` (src/models/User.js lines
126-143): restart at 1 when a previous lock has expired, otherwise
increment, setting a 2-hour lock when the attempts reach 5 and no lock
is active. -/
def incLoginAttempts (u : UserM) (now : ℕ) : UserM :=
  if (match u.lockUntil with
      | some l => decide (l < now)
      | none => false) then
    { u with loginAttempts := 1, lockUntil := none }
  else
    { u with
      loginAttempts := u.loginAttempts + 1
      lockUntil :=
        if 5 ≤ u.loginAttempts + 1 ∧ lockedB u now = false then
          some (now + 2 * 60 * 60 * 1000)
        else u.lockUntil }

/-- `POST /api/auth/login` of src/unnamed/part_002 (lines 66-135), for a
request whose email resolved to the user `u`: lock check, then password
check (on failure `incLoginAttempts`), on success
`resetLoginAttempts` (which unsets both fields). -/
def loginB (u : UserM) (passwordOk : Bool) (now : ℕ) : LoginRes × UserM :=
  if lockedB u now then (LoginRes.accountLocked, u)
  else if !passwordOk then (LoginRes.invalidCredentials, incLoginAttempts u now)
  else (LoginRes.success, { u with loginAttempts := 0, lockUntil := none })

/-- A run of consecutive failed logins at the given times, variant B. -/
def failsB (u : UserM) (ts : List ℕ) : UserM :=
  ts.foldl (fun v t => (loginB v false t).2) u

/-- A line item of an order (src/models/Order.js lines 14-35): snapshot
of product reference, name, unit price and quantity. -/
structure OrderItem where
  product : ℕ
  name : String
  price : ℚ
  quantity : ℕ
deriving DecidableEq

/-- An order document (src/models/Order.js): the fields the claims are
about. `status` stays a string because the routes compare it against
string literals that are not all members of the schema enum. -/
structure Order where
  orderNumber : String
  items : List OrderItem
  total : ℚ
  status : String
deriving DecidableEq

/-- The `status` enum of the order schema (src/models/Order.js lines
41-45). -/
def orderStatusEnum : List String :=
  ["pending", "processing", "shipped", "delivered", "cancelled"]

/-- Mongoose enum validation of the status field, run on `save`. -/
def validOrderStatus (s : String) : Bool := orderStatusEnum.contains s

/-- An embedded product review (src/models/Product.js lines 95-111). -/
structure Review where
  user : ℕ
  rating : ℚ
deriving DecidableEq

/-- A product document (src/models/Product.js): the fields the claims
are about. -/
structure Product where
  stock : ℤ
  price : ℚ
  reviews : List Review
  averageRating : ℚ
  reviewCount : ℕ
deriving DecidableEq

/-- The product collection, keyed by object id. -/
abbrev ProductStore := List (ℕ × Product)

/-- `Product.findByIdAndUpdate(id, { $inc: { stock: delta } })`: a raw
update that adds `delta` to the stock of the matching document. Update
operations do not run the schema validators (so the `min: 0` bound on
stock is not enforced here). -/
def incStock (ps : ProductStore) (id : ℕ) (delta : ℤ) : ProductStore :=
  ps.map (fun e => if e.1 = id then (e.1, { e.2 with stock := e.2.stock + delta }) else e)

/-- `orderSchema.post('save')` (src/models/Order.js lines 106-116):
when the saved order's status is `pending`, decrement each referenced
product's stock by the ordered quantity. -/
def postSaveOrder (o : Order) (ps : ProductStore) : ProductStore :=
  if o.status == "pending" then
    o.items.foldl (fun st it => incStock st it.product (-(it.quantity : ℤ))) ps
  else ps

/-- `orderSchema.post('findOneAndUpdate')` (src/models/Order.js lines
119-129): restore each item's quantity to the product stock when the
update sets status `cancelled` and the document handed to the hook does
not already have status `cancelled`. -/
def postUpdateOrder (doc : Order) (updateStatus : String) (ps : ProductStore) : ProductStore :=
  if updateStatus == "cancelled" && doc.status != "cancelled" then
    doc.items.foldl (fun st it => incStock st it.product (it.quantity : ℤ)) ps
  else ps

/-- Decimal digit string of a positive integer, i.e. `String(n)` applied
to a JS integer: the base-10 digits, most significant first, rendered as
characters. -/
def natDecChars (n : ℕ) : List Char :=
  ((Nat.digits 10 n).map Nat.digitChar).reverse

/-- `s.padStart(4, '0')`. -/
def padStart4 (s : List Char) : List Char :=
  List.replicate (4 - s.length) '0' ++ s

/-- The generated order number for a collection that currently holds
`count` documents: `` `CMD-${String(count + 1).padStart(4, '0')}` ``
(src/models/Order.js line 92). -/
def orderNumberStr (count : ℕ) : String :=
  "CMD-" ++ ⟨padStart4 (natDecChars (count + 1))⟩

/-- `orderSchema.pre('save')` order-number hook (src/models/Order.js
lines 89-95) for a new document: `count` is the result of
`countDocuments()` at save time. -/
def preSaveOrderNumber (count : ℕ) (o : Order) : Order :=
  { o with orderNumber := orderNumberStr count }

/-- `items.reduce((sum, item) => sum + (item.price * item.quantity), 0)`. -/
def itemsTotal (items : List OrderItem) : ℚ :=
  items.foldl (fun s i => s + i.price * (i.quantity : ℚ)) 0

/-- `orderSchema.pre('save')` total hook (src/models/Order.js lines
98-103): recompute the total from the items whenever the items list is
non-empty. -/
def preSaveTotal (o : Order) : Order :=
  if 0 < o.items.length then { o with total := itemsTotal o.items } else o

/-- The payment methods the order route accepts
(`body('paymentMethod').isIn(['Stripe', 'PayPal', 'Livraison'])`,
src/unnamed/part_001 line 187). -/
def routePaymentMethods : List String := ["Stripe", "PayPal", "Livraison"]

/-- The payment methods the order schema allows
(`enum: ['card', 'paypal', 'cash_on_delivery']`, src/models/Order.js
lines 46-50). Disjoint from `routePaymentMethods`. -/
def schemaPaymentMethods : List String := ["card", "paypal", "cash_on_delivery"]

/-- A new order document as Mongoose validation sees it: validation is
run before the user `pre('save')` hooks, so at that point the required
`orderNumber` has not been assigned yet (the generating hook only runs
afterwards) — hence the `Option`. -/
structure PendingOrder where
  orderNumber : Option String
  items : List OrderItem
  total : ℚ
  status : String
  paymentMethod : String
deriving DecidableEq

/-- The document `new Order({user, items, total, paymentMethod, ...})`
built by `POST /api/orders` (src/unnamed/part_001 lines 207-214): no
`orderNumber`, default status `pending`, the client's payment method. -/
def newOrderFromRoute (items : List OrderItem) (total : ℚ) (pm : String) : PendingOrder :=
  { orderNumber := none
    items := items
    total := total
    status := "pending"
    paymentMethod := pm }

/-- Mongoose validation of a new order document (the schema constraints
of src/models/Order.js relevant here): `orderNumber` is required, the
status must be in the status enum, the payment method in the payment
enum, and the total non-negative. -/
def validateNewOrderDoc (d : PendingOrder) : Bool :=
  d.orderNumber.isSome && validOrderStatus d.status &&
    schemaPaymentMethods.contains d.paymentMethod && decide (0 ≤ d.total)

/-- The express-validator checks of `POST /api/orders`
(src/unnamed/part_001 lines 181-191): each item's price ≥ 0 and
quantity ≥ 1, total ≥ 0, payment method in the route's list. -/
def routeAcceptsOrder (items : List OrderItem) (total : ℚ) (pm : String) : Bool :=
  items.all (fun i => decide (0 ≤ i.price) && decide (1 ≤ i.quantity)) &&
    decide (0 ≤ total) && routePaymentMethods.contains pm

/-- `POST /api/orders` (src/unnamed/part_001 lines 180-279): router
validation (failure → 400), then `order.save()`. The save first runs
Mongoose validation of the new document — before the user `pre('save')`
hooks, so with no `orderNumber` and the route-supplied payment method —
and aborts on failure (the route answers 500 and nothing is persisted).
Only if validation passed would the number/total hooks run, the document
persist and the post-save stock hook fire. -/
def createOrderChecked (count : ℕ) (items : List OrderItem) (clientTotal : ℚ)
    (pm : String) (ps : ProductStore) : Option Order × ProductStore :=
  if routeAcceptsOrder items clientTotal pm then
    if validateNewOrderDoc (newOrderFromRoute items clientTotal pm) then
      let o := preSaveTotal (preSaveOrderNumber count
        { orderNumber := "", items := items, total := clientTotal, status := "pending" })
      (some o, postSaveOrder o ps)
    else (none, ps)
  else (none, ps)

/-- `save()` on an existing order document: enum validation of the
status field first (a validation failure aborts the save, so the stored
document and the product stocks are unchanged and the route's catch
block answers 500), then the post-save stock hook. -/
def saveOrder (o : Order) (ps : ProductStore) : Option Order × ProductStore :=
  if validOrderStatus o.status then (some o, postSaveOrder o ps) else (none, ps)

/-- `POST /api/orders/:id/cancel` (src/unnamed/part_001 lines 354-384)
for an order owned by the requester: reject with 400 when the status is
already `'Annulée'` or `'Livrée'`, otherwise set the status to
`'Annulée'` and save. Returns the HTTP status, the stored order and the
product collection after the request. -/
def userCancelOrder (o : Order) (ps : ProductStore) : ℕ × Order × ProductStore :=
  if o.status == "Annulée" || o.status == "Livrée" then (400, o, ps)
  else
    match saveOrder { o with status := "Annulée" } ps with
    | (some o2, ps2) => (200, o2, ps2)
    | (none, ps2) => (500, o, ps2)

/-- `PUT /api/admin/orders/:id/status` (src/routes/admin.js lines
59-104) for an existing order `o`:
`Order.findByIdAndUpdate(id, { status }, { new: true })`. No validators
run on the update, and because of `new: true` the document handed to
the post-`findOneAndUpdate` hook is the already-updated one. -/
def adminUpdateOrderStatus (o : Order) (newStatus : String)
    (ps : ProductStore) : Order × ProductStore :=
  let updated := { o with status := newStatus }
  (updated, postUpdateOrder updated newStatus ps)

/-- The order collection of a trace of operations; `countDocuments()`
is its length. -/
abbrev OrderStore := List Order

/-- One `POST /api/orders` request: the client-supplied items, total
and payment method. -/
structure OrderReq where
  items : List OrderItem
  total : ℚ
  paymentMethod : String
deriving DecidableEq

/-- One order-creation attempt against the collection: router
validation and Mongoose validation of the new document as in
`createOrderChecked`; only a request that passes both would run the
pre-save hooks (with `count = countDocuments()`) and insert the
document. -/
def saveNewOrderChecked (st : OrderStore) (r : OrderReq) : OrderStore :=
  if routeAcceptsOrder r.items r.total r.paymentMethod &&
      validateNewOrderDoc (newOrderFromRoute r.items r.total r.paymentMethod) then
    st ++ [preSaveTotal (preSaveOrderNumber st.length
      { orderNumber := "", items := r.items, total := r.total, status := "pending" })]
  else st

/-- A run of consecutive order-creation attempts. -/
def createManyOrdersChecked (init : OrderStore) (reqs : List OrderReq) : OrderStore :=
  reqs.foldl saveNewOrderChecked init

/-- `PUT /api/admin/products/:id` (src/routes/admin.js lines 150-156)
with a body containing a `stock` field:
`Product.findByIdAndUpdate(id, req.body, { new: true })` — an update
operation, which does not run the schema validators, so the `min: 0`
bound on stock is not enforced. -/
def adminUpdateProductStock (ps : ProductStore) (id : ℕ) (newStock : ℤ) : ProductStore :=
  ps.map (fun e => if e.1 = id then (e.1, { e.2 with stock := newStock }) else e)

/-- The schema's `min: 0` validator on `stock` (src/models/Product.js
lines 39-44), enforced on create/save but not on update operations. -/
def validStockMin0 (stock : ℤ) : Bool := decide (0 ≤ stock)

/-- `reviews.reduce((sum, review) => sum + review.rating, 0)`. -/
def ratingsSum (rs : List Review) : ℚ := rs.foldl (fun s r => s + r.rating) 0

/-- `productSchema.pre('save')` rating hook (src/models/Product.js lines
142-149): when the review list is non-empty, recompute `averageRating`
and `reviewCount`; otherwise leave both fields as they are. -/
def preSaveRating (p : Product) : Product :=
  if 0 < p.reviews.length then
    { p with
      averageRating := ratingsSum p.reviews / (p.reviews.length : ℚ)
      reviewCount := p.reviews.length }
  else p

/-- The arithmetic mean of the ratings, or 0 for an empty list — the
quantity the specification says `averageRating` always equals. -/
def meanRating (rs : List Review) : ℚ :=
  if rs.length = 0 then 0 else ratingsSum rs / (rs.length : ℚ)

/-- One field of a JSON-serialized JS object; a field whose value is
`undefined` (`none`) is dropped by `res.json`. -/
structure JsField where
  key : String
  value : Option String
deriving DecidableEq

/-- `user.password = undefined` (src/routes/auth.js line 21). -/
def setPasswordUndefined (fs : List JsField) : List JsField :=
  fs.map (fun f => if f.key == "password" then { f with value := none } else f)

/-- The keys that survive JSON serialization: those whose value is
defined. -/
def jsonKeys (fs : List JsField) : List String :=
  (fs.filter (fun f => f.value.isSome)).map (fun f => f.key)

/-- The keys of the `user` object in the response produced by
`sendUserResponse` (src/routes/auth.js lines 17-28): the user document
with the password blanked to `undefined`, then serialized. -/
def sendUserResponseKeys (fs : List JsField) : List String :=
  jsonKeys (setPasswordUndefined fs)

/-- The keys of the `user` object in the `POST /api/auth/register`
response of src/unnamed/part_002 (lines 42-52), which lists the fields
explicitly. -/
def registerResponseKeys : List String :=
  ["_id", "name", "email", "role", "loyaltyPoints", "tier",
   "totalCO2Saved", "totalWaterSaved", "totalOrangesRecycled"]

/-- A user record as the admin-management routes see it. -/
structure UserRec where
  id : String
  role : String
deriving DecidableEq

/-- `User.findById`. -/
def findById (db : List UserRec) (i : String) : Option UserRec :=
  db.find? (fun u => u.id == i)

/-- Saving a role change on the matching document. -/
def setRole (db : List UserRec) (i : String) (r : String) : List UserRec :=
  db.map (fun u => if u.id == i then { u with role := r } else u)

/-- `PUT /api/admin/admins/:id/demote` (src/routes/admin.js lines
369-384), after the protect/admin gates: 400 when the caller targets
itself, 404 when the target is missing or is not an admin, otherwise
set the target's role to `'user'` and save. Returns the HTTP status
and the user collection after the request. -/
def demoteAdmin (db : List UserRec) (selfId targetId : String) : ℕ × List UserRec :=
  if selfId == targetId then (400, db)
  else
    match findById db targetId with
    | none => (404, db)
    | some u => if u.role == "admin" then (200, setRole db targetId "user") else (404, db)

/-! ### Theorems -/

lemma highestTierLe_eq (lp : ℤ) :
    highestTierLe lp =
      (if 1000 ≤ lp then Tier.platinum
       else if 500 ≤ lp then Tier.gold
       else if 100 ≤ lp then Tier.silver
       else Tier.bronze) := by
  by_cases h1 : (1000 : ℤ) ≤ lp
  · have h2 : (500 : ℤ) ≤ lp := by omega
    have h3 : (100 : ℤ) ≤ lp := by omega
    have h4 : (0 : ℤ) ≤ lp := by omega
    simp [highestTierLe, tierLadder, Tier.threshold, h1, h2, h3, h4]
  · by_cases h2 : (500 : ℤ) ≤ lp
    · have h3 : (100 : ℤ) ≤ lp := by omega
      have h4 : (0 : ℤ) ≤ lp := by omega
      simp [highestTierLe, tierLadder, Tier.threshold, h1, h2, h3, h4]
    · by_cases h3 : (100 : ℤ) ≤ lp
      · have h4 : (0 : ℤ) ≤ lp := by omega
        simp [highestTierLe, tierLadder, Tier.threshold, h1, h2, h3, h4]
      · by_cases h4 : (0 : ℤ) ≤ lp <;>
          simp [highestTierLe, tierLadder, Tier.threshold, h1, h2, h3, h4]

/-- The if/else-if chain of part_005 (which falls back to the previous
tier below 100 points) re-establishes the invariant whenever it held
before the mutation and the points delta is non-negative. -/
lemma tier_chain_preserves (lp del : ℤ) (t : Tier)
    (hInv : t = highestTierLe lp) (hdel : 0 ≤ del) :
    (if 1000 ≤ lp + del then Tier.platinum
     else if 500 ≤ lp + del then Tier.gold
     else if 100 ≤ lp + del then Tier.silver
     else t) = highestTierLe (lp + del) := by
  rw [highestTierLe_eq]
  by_cases h1 : 1000 ≤ lp + del
  · simp [h1]
  · by_cases h2 : 500 ≤ lp + del
    · simp [h1, h2]
    · by_cases h3 : 100 ≤ lp + del
      · simp [h1, h2, h3]
      · have hl1 : ¬ (1000 : ℤ) ≤ lp := by omega
        have hl2 : ¬ (500 : ℤ) ≤ lp := by omega
        have hl3 : ¬ (100 : ℤ) ≤ lp := by omega
        rw [highestTierLe_eq] at hInv
        simp only [hl1, hl2, hl3, if_false] at hInv
        simp [h1, h2, h3, hInv]

/-- Claim C4: for a user satisfying the tier/points invariant, every
loyalty-points mutation with non-negative arguments re-establishes it
(`updateLoyaltyPoints` and `updateImpact` of src/unnamed/part_005, and
`addLoyaltyPoints` via `updateTier` of src/models/User.js — the latter
recomputes the tier unconditionally, so it needs no hypotheses); a
freshly created user satisfies the invariant to begin with. -/
theorem c4_tier_invariant (u : User5) (uM : UserM) (p : ℤ) (c w o : ℚ) (q : ℤ)
    (hInv : u.tier = highestTierLe u.loyaltyPoints)
    (hp : 0 ≤ p) (hc : 0 ≤ c) :
    freshUser5.tier = highestTierLe freshUser5.loyaltyPoints ∧
    (updateLoyaltyPoints u p).tier =
      highestTierLe (updateLoyaltyPoints u p).loyaltyPoints ∧
    (updateImpact u c w o).tier =
      highestTierLe (updateImpact u c w o).loyaltyPoints ∧
    (addLoyaltyPoints uM q).tier =
      highestTierLe (addLoyaltyPoints uM q).loyaltyPoints := by
  refine ⟨by rw [highestTierLe_eq]; rfl, ?_, ?_, ?_⟩
  · exact tier_chain_preserves u.loyaltyPoints p u.tier hInv hp
  · exact tier_chain_preserves u.loyaltyPoints (⌊c⌋) u.tier hInv
      (Int.floor_nonneg.mpr hc)
  · rw [highestTierLe_eq]; rfl

/-- Witness for C4 at a concrete input: the fresh user, points deltas
150 / 2 kg CO2 / 600. -/
theorem c4_tier_invariant_witness :
    freshUser5.tier = highestTierLe freshUser5.loyaltyPoints ∧
    ((0 : ℤ) ≤ 150 ∧ (0 : ℚ) ≤ 2) ∧
    ((updateLoyaltyPoints freshUser5 150).tier =
        highestTierLe (updateLoyaltyPoints freshUser5 150).loyaltyPoints ∧
      (updateImpact freshUser5 2 3 1).tier =
        highestTierLe (updateImpact freshUser5 2 3 1).loyaltyPoints ∧
      (addLoyaltyPoints ⟨0, Tier.bronze, 0, none, true⟩ 600).tier =
        highestTierLe (addLoyaltyPoints ⟨0, Tier.bronze, 0, none, true⟩ 600).loyaltyPoints) := by
  have h := c4_tier_invariant freshUser5 ⟨0, Tier.bronze, 0, none, true⟩ 150 2 3 1 600
    (by rw [highestTierLe_eq]; rfl) (by decide)
    (by norm_num)
  exact ⟨h.1, ⟨by decide, by norm_num⟩, h.2⟩

/-- Claim C7: in both login variants, after 5 consecutive failed
password attempts on a fresh (unlocked, zero-counter) account, the lock
expiry is stored (last failure time + 15 min in variant A, + 2 h in
variant B) and every subsequent login attempt — with either password
outcome — returns the 423 AccountLocked response and leaves the user
unchanged, as long as the attempt happens before the stored expiry;
once the expiry has elapsed a correct-password login succeeds again. -/
theorem c7_lockout (uA : User5) (uB : UserM) (t1 t2 t3 t4 t5 : ℕ)
    (hA0 : uA.failedLoginAttempts = 0) (hA1 : uA.lockUntil = none)
    (hA2 : uA.isActive = true)
    (hB0 : uB.loginAttempts = 0) (hB1 : uB.lockUntil = none) :
    (failsA uA [t1, t2, t3, t4, t5]).lockUntil = some (t5 + 15 * 60 * 1000) ∧
    (∀ t pw, t < t5 + 15 * 60 * 1000 →
      loginA (failsA uA [t1, t2, t3, t4, t5]) pw t =
        (LoginRes.accountLocked, failsA uA [t1, t2, t3, t4, t5])) ∧
    (∀ t, t5 + 15 * 60 * 1000 ≤ t →
      (loginA (failsA uA [t1, t2, t3, t4, t5]) true t).1 = LoginRes.success) ∧
    (failsB uB [t1, t2, t3, t4, t5]).lockUntil = some (t5 + 2 * 60 * 60 * 1000) ∧
    (∀ t pw, t < t5 + 2 * 60 * 60 * 1000 →
      loginB (failsB uB [t1, t2, t3, t4, t5]) pw t =
        (LoginRes.accountLocked, failsB uB [t1, t2, t3, t4, t5])) ∧
    (∀ t, t5 + 2 * 60 * 60 * 1000 ≤ t →
      (loginB (failsB uB [t1, t2, t3, t4, t5]) true t).1 = LoginRes.success) := by
  obtain ⟨lp, tr, c, w, o, fa, lu, act⟩ := uA
  obtain ⟨lpB, trB, la, luB, actB⟩ := uB
  simp only at hA0 hA1 hA2 hB0 hB1
  subst hA0 hA1 hA2 hB0 hB1
  have hA5 : failsA ⟨lp, tr, c, w, o, 0, none, true⟩ [t1, t2, t3, t4, t5] =
      ⟨lp, tr, c, w, o, 5, some (t5 + 15 * 60 * 1000), true⟩ := by
    simp [failsA, loginA, lockedA]
  have hB5 : failsB ⟨lpB, trB, 0, none, actB⟩ [t1, t2, t3, t4, t5] =
      ⟨lpB, trB, 5, some (t5 + 2 * 60 * 60 * 1000), actB⟩ := by
    simp [failsB, loginB, lockedB, incLoginAttempts]
  rw [hA5, hB5]
  refine ⟨rfl, ?_, ?_, rfl, ?_, ?_⟩
  · intro t pw ht
    simp [loginA, lockedA, ht]
  · intro t ht
    simp [loginA, lockedA, Nat.not_lt.mpr ht]
  · intro t pw ht
    simp [loginB, lockedB, ht]
  · intro t ht
    simp [loginB, lockedB, Nat.not_lt.mpr ht]

/-- Witness for C7: the fresh user failing 5 times at time 0 in both
variants. -/
theorem c7_lockout_witness :
    (failsA freshUser5 [0, 0, 0, 0, 0]).lockUntil = some (0 + 15 * 60 * 1000) ∧
    (∀ t pw, t < 0 + 15 * 60 * 1000 →
      loginA (failsA freshUser5 [0, 0, 0, 0, 0]) pw t =
        (LoginRes.accountLocked, failsA freshUser5 [0, 0, 0, 0, 0])) ∧
    (∀ t, 0 + 15 * 60 * 1000 ≤ t →
      (loginA (failsA freshUser5 [0, 0, 0, 0, 0]) true t).1 = LoginRes.success) ∧
    (failsB ⟨0, Tier.bronze, 0, none, true⟩ [0, 0, 0, 0, 0]).lockUntil =
      some (0 + 2 * 60 * 60 * 1000) ∧
    (∀ t pw, t < 0 + 2 * 60 * 60 * 1000 →
      loginB (failsB ⟨0, Tier.bronze, 0, none, true⟩ [0, 0, 0, 0, 0]) pw t =
        (LoginRes.accountLocked, failsB ⟨0, Tier.bronze, 0, none, true⟩ [0, 0, 0, 0, 0])) ∧
    (∀ t, 0 + 2 * 60 * 60 * 1000 ≤ t →
      (loginB (failsB ⟨0, Tier.bronze, 0, none, true⟩ [0, 0, 0, 0, 0]) true t).1 =
        LoginRes.success) :=
  c7_lockout freshUser5 ⟨0, Tier.bronze, 0, none, true⟩ 0 0 0 0 0 rfl rfl rfl rfl rfl

/-- Claim C1 (code bug): no order is ever persisted, so the claimed
round-trip (items `[{10,2},{5,1}]` → persisted total 25) cannot occur.
Every `POST /api/orders` returns `(none, ps)` — the save always fails
Mongoose validation, because the required `orderNumber` is only
assigned by a `pre('save')` hook that runs after validation; and
independently every payment method the router accepts is outside the
schema's payment enum. -/
theorem c1_no_order_persisted (count : ℕ) (items : List OrderItem) (clientTotal : ℚ)
    (pm : String) (ps : ProductStore) :
    createOrderChecked count items clientTotal pm ps = (none, ps) ∧
    (pm ∈ routePaymentMethods → schemaPaymentMethods.contains pm = false) := by
  constructor
  · unfold createOrderChecked
    split
    · simp [validateNewOrderDoc, newOrderFromRoute]
    · rfl
  · intro h
    simp only [routePaymentMethods, List.mem_cons, List.not_mem_nil, or_false] at h
    rcases h with rfl | rfl | rfl
    · decide
    · decide
    · decide

/-- Witness for C1 at the specification's round-trip input: items
`[{price:10, qty:2}, {price:5, qty:1}]`, client total 999, payment
method `'Stripe'` (route-accepted): nothing is persisted, and `'Stripe'`
is not in the schema's payment enum. -/
theorem c1_no_order_persisted_witness :
    (("Stripe" : String) ∈ routePaymentMethods) ∧
    createOrderChecked 0 [⟨1, "a", 10, 2⟩, ⟨2, "b", 5, 1⟩] 999 ("Stripe") [] =
      (none, []) ∧
    schemaPaymentMethods.contains ("Stripe") = false := by
  have h := c1_no_order_persisted 0 [⟨1, "a", 10, 2⟩, ⟨2, "b", 5, 1⟩] 999 ("Stripe") []
  exact ⟨by decide, h.1, h.2 (by decide)⟩

/-- Claim C9: neither response variant ever contains the password: the
`sendUserResponse` helper of src/routes/auth.js blanks the password to
`undefined` before serializing (and `res.json` drops undefined fields),
and the register/login responses of src/unnamed/part_002 list their
fields explicitly, without the password. -/
theorem c9_password_stripped (fs : List JsField) :
    "password" ∉ sendUserResponseKeys fs ∧ "password" ∉ registerResponseKeys := by
  constructor
  · intro h
    unfold sendUserResponseKeys jsonKeys at h
    rw [List.mem_map] at h
    obtain ⟨f, hf, hkey⟩ := h
    rw [List.mem_filter] at hf
    obtain ⟨hmem, hsome⟩ := hf
    unfold setPasswordUndefined at hmem
    rw [List.mem_map] at hmem
    obtain ⟨g, _, hfg⟩ := hmem
    by_cases hgk : g.key == "password"
    · rw [if_pos hgk] at hfg
      rw [← hfg] at hsome
      simp at hsome
    · rw [if_neg hgk] at hfg
      rw [← hfg] at hkey
      exact hgk (beq_iff_eq.mpr hkey)
  · decide

/-- Claim C10: the demote-admin handler returns 400 and leaves the user
collection unchanged when an admin targets itself; it returns 404 and
changes nothing when the target is missing or is not an admin; and it
succeeds (200), setting the target's role to `user`, exactly when the
target exists with role `admin`. -/
theorem c10_demote_admin (db : List UserRec) (selfId targetId : String) :
    (targetId = selfId → demoteAdmin db selfId targetId = (400, db)) ∧
    (targetId ≠ selfId → findById db targetId = none →
      demoteAdmin db selfId targetId = (404, db)) ∧
    (∀ u, targetId ≠ selfId → findById db targetId = some u → u.role ≠ "admin" →
      demoteAdmin db selfId targetId = (404, db)) ∧
    (∀ u, targetId ≠ selfId → findById db targetId = some u → u.role = "admin" →
      demoteAdmin db selfId targetId = (200, setRole db targetId "user")) := by
  refine ⟨?_, ?_, ?_, ?_⟩
  · intro h
    subst h
    simp [demoteAdmin]
  · intro hne hfind
    have hb : (selfId == targetId) = false := beq_eq_false_iff_ne.mpr (Ne.symm hne)
    simp [demoteAdmin, hb, hfind]
  · intro u hne hfind hrole
    have hb : (selfId == targetId) = false := beq_eq_false_iff_ne.mpr (Ne.symm hne)
    have hr : (u.role == "admin") = false := beq_eq_false_iff_ne.mpr hrole
    simp [demoteAdmin, hb, hfind, hr]
  · intro u hne hfind hrole
    have hb : (selfId == targetId) = false := beq_eq_false_iff_ne.mpr (Ne.symm hne)
    have hr : (u.role == "admin") = true := beq_iff_eq.mpr hrole
    simp [demoteAdmin, hb, hfind, hr]

/-- Witness for C10 on the collection `[a1: admin, a2: admin, u1: user]`
with `a1` as caller: self-demotion gives 400, a missing id gives 404, a
non-admin target gives 404, and demoting `a2` succeeds. -/
theorem c10_demote_admin_witness :
    demoteAdmin [⟨"a1", "admin"⟩, ⟨"a2", "admin"⟩, ⟨"u1", "user"⟩] ("a1") ("a1") =
      (400, [⟨"a1", "admin"⟩, ⟨"a2", "admin"⟩, ⟨"u1", "user"⟩]) ∧
    demoteAdmin [⟨"a1", "admin"⟩, ⟨"a2", "admin"⟩, ⟨"u1", "user"⟩] ("a1") ("zz") =
      (404, [⟨"a1", "admin"⟩, ⟨"a2", "admin"⟩, ⟨"u1", "user"⟩]) ∧
    demoteAdmin [⟨"a1", "admin"⟩, ⟨"a2", "admin"⟩, ⟨"u1", "user"⟩] ("a1") ("u1") =
      (404, [⟨"a1", "admin"⟩, ⟨"a2", "admin"⟩, ⟨"u1", "user"⟩]) ∧
    demoteAdmin [⟨"a1", "admin"⟩, ⟨"a2", "admin"⟩, ⟨"u1", "user"⟩] ("a1") ("a2") =
      (200, setRole [⟨"a1", "admin"⟩, ⟨"a2", "admin"⟩, ⟨"u1", "user"⟩] ("a2") ("user")) := by
  have h := c10_demote_admin [⟨"a1", "admin"⟩, ⟨"a2", "admin"⟩, ⟨"u1", "user"⟩] ("a1")
  exact ⟨(h ("a1")).1 rfl,
    (h ("zz")).2.1 (by decide) (by decide),
    (h ("u1")).2.2.1 ⟨"u1", "user"⟩ (by decide) (by decide) (by decide),
    (h ("a2")).2.2.2 ⟨"a2", "admin"⟩ (by decide) (by decide) rfl⟩

/-- Counterexample for claim C5: the admin product-creation route passes
`req.body` straight to `Product.create`, so a product with an empty
review list and `averageRating` 5 can be saved; the rating hook skips
empty review lists, so after the save `averageRating` is 5, not the 0
the claim requires for an empty list. -/
theorem c5_counterexample :
    (preSaveRating ⟨0, 10, [], 5, 2⟩).reviews = [] ∧
    (preSaveRating ⟨0, 10, [], 5, 2⟩).averageRating ≠
      meanRating (preSaveRating ⟨0, 10, [], 5, 2⟩).reviews := by
  exact ⟨rfl, by decide⟩

/-- Claim C5 (amended): after every save, if the review list is
non-empty then `averageRating` equals the arithmetic mean of its
ratings and `reviewCount` equals its length; a save with an empty
review list leaves both fields unchanged (so they are 0 only when they
already were, e.g. the schema defaults). -/
theorem c5_rating_recomputed (p : Product) :
    (p.reviews ≠ [] →
      (preSaveRating p).averageRating = meanRating p.reviews ∧
      (preSaveRating p).reviewCount = p.reviews.length) ∧
    (p.reviews = [] → preSaveRating p = p) := by
  constructor
  · intro h
    have hl : 0 < p.reviews.length := List.length_pos.mpr h
    have hl0 : p.reviews.length ≠ 0 := Nat.pos_iff_ne_zero.mp hl
    simp [preSaveRating, meanRating, hl, hl0]
  · intro h
    simp [preSaveRating, h]

/-- Witness for C5 (amended): a product with ratings `[4, 2]` saves with
average 3 and count 2; a default product with no reviews is unchanged. -/
theorem c5_rating_recomputed_witness :
    ([(⟨1, 4⟩ : Review), ⟨2, 2⟩] ≠ []) ∧
    (preSaveRating ⟨3, 10, [⟨1, 4⟩, ⟨2, 2⟩], 0, 0⟩).averageRating =
      meanRating [⟨1, 4⟩, ⟨2, 2⟩] ∧
    (preSaveRating ⟨3, 10, [⟨1, 4⟩, ⟨2, 2⟩], 0, 0⟩).reviewCount = 2 ∧
    preSaveRating ⟨0, 10, [], 0, 0⟩ = ⟨0, 10, [], 0, 0⟩ := by
  have h1 := (c5_rating_recomputed ⟨3, 10, [⟨1, 4⟩, ⟨2, 2⟩], 0, 0⟩).1 (by decide)
  have h2 := (c5_rating_recomputed ⟨0, 10, [], 0, 0⟩).2 rfl
  exact ⟨by decide, h1.1, h1.2, h2⟩

/-- Claim C2 (code bug): the cancel route guards on the French status
strings `'Annulée'`/`'Livrée'`, which are not members of the order
schema's status enum, so the guard can never fire for a stored status;
cancelling an order whose status is `'cancelled'` or `'delivered'` is
NOT rejected with 400 — instead the handler sets status `'Annulée'`,
whose save fails enum validation, and the catch block answers 500 (the
stored order is unchanged). -/
theorem c2_cancel_guard_dead :
    (∀ s, (s == "Annulée" || s == "Livrée") = true → validOrderStatus s = false) ∧
    (∀ ps, userCancelOrder ⟨"CMD-0001", [], 25, "cancelled"⟩ ps =
      (500, ⟨"CMD-0001", [], 25, "cancelled"⟩, ps)) ∧
    (∀ ps, userCancelOrder ⟨"CMD-0001", [], 25, "delivered"⟩ ps =
      (500, ⟨"CMD-0001", [], 25, "delivered"⟩, ps)) := by
  refine ⟨?_, fun ps => rfl, fun ps => rfl⟩
  intro s hs
  rcases Bool.or_eq_true_iff.mp hs with h | h
  · rw [beq_iff_eq.mp h]
    decide
  · rw [beq_iff_eq.mp h]
    decide

/-- Witness for C2's guard-deadness conjunct at the concrete status
`'Annulée'`: the guard fires only on statuses the schema forbids. -/
theorem c2_cancel_guard_dead_witness :
    ((("Annulée" : String) == "Annulée" || ("Annulée" : String) == "Livrée") = true) ∧
    validOrderStatus ("Annulée") = false := by
  exact ⟨by decide, c2_cancel_guard_dead.1 ("Annulée") (by decide)⟩

/-- Claim C3 (code bug): no cancellation path restores product stock.
The admin status route calls `findByIdAndUpdate(..., { new: true })`,
so the post-hook receives the already-updated document, its
`doc.status !== 'cancelled'` test fails, and the restore loop is
skipped; the user cancel route calls `save()` (to which the
post-`findOneAndUpdate` hook does not apply at all) with the invalid
status `'Annulée'`, so that save fails validation and also changes no
stock. The third conjunct shows the concrete failing input: a pending
order of 5 units whose product has stock 0 is "cancelled" by the admin
route and the stock stays 0 instead of becoming 5. -/
theorem c3_cancel_never_restores :
    (∀ o ps, (adminUpdateOrderStatus o ("cancelled") ps).2 = ps) ∧
    (∀ o ps, (userCancelOrder o ps).2.2 = ps) ∧
    (adminUpdateOrderStatus ⟨"CMD-0001", [⟨1, "Savon", 10, 5⟩], 50, "pending"⟩
        ("cancelled") [(1, ⟨0, 10, [], 0, 0⟩)]).2 = [(1, ⟨0, 10, [], 0, 0⟩)] := by
  refine ⟨fun o ps => rfl, ?_, rfl⟩
  intro o ps
  simp only [userCancelOrder]
  split
  · rfl
  · rfl

/-- Claim C8 (code bug): the admin product update
`Product.findByIdAndUpdate(id, req.body, { new: true })` is an update
operation, so the schema's `min: 0` validator on stock does not run;
updating product 1 (stock 3) with body `{stock: -5}` stores stock −5,
which the validator would have rejected. (The order-placement and
cancellation paths never touch stock at all: order creation always
fails validation, see C1, and the restore hook never fires, see C3.) -/
theorem c8_stock_goes_negative :
    adminUpdateProductStock [(1, ⟨3, 10, [], 0, 0⟩)] 1 (-5) = [(1, ⟨-5, 10, [], 0, 0⟩)] ∧
    validStockMin0 (-5) = false ∧
    ¬ (0 : ℤ) ≤ -5 := by
  exact ⟨rfl, by decide, by decide⟩

/-- Claim C6 (code bug): order numbers are never generated at all.
Every order-creation attempt fails Mongoose validation (required
`orderNumber` missing at validation time, and the router's payment
methods are outside the schema enum), so the numbering hook never runs:
each attempt leaves the collection unchanged, and any sequence of
creation attempts against an empty collection yields no order numbers —
there is also no code path that deletes orders. -/
theorem c6_no_order_numbers (st : OrderStore) (r : OrderReq) (reqs : List OrderReq) :
    saveNewOrderChecked st r = st ∧
    createManyOrdersChecked [] reqs = [] ∧
    (createManyOrdersChecked [] reqs).map (fun o => o.orderNumber) = [] := by
  have key : ∀ (st1 : OrderStore) (r1 : OrderReq), saveNewOrderChecked st1 r1 = st1 := by
    intro st1 r1
    simp [saveNewOrderChecked, validateNewOrderDoc, newOrderFromRoute]
  have hall : ∀ (rs : List OrderReq) (init : OrderStore),
      createManyOrdersChecked init rs = init := by
    intro rs
    induction rs with
    | nil => intro init; rfl
    | cons a t ih =>
      intro init
      have h1 : createManyOrdersChecked init (a :: t) =
          createManyOrdersChecked (saveNewOrderChecked init a) t := rfl
      rw [h1, key, ih]
  refine ⟨key st r, hall reqs [], ?_⟩
  rw [hall reqs []]
  rfl


end GreenZest
